import Mathlib

/-
Verification of the paginated list controllers of the lead-manager frontend.

The repository contains two list pages built on the same pattern:
* the appointments page (`fetchAppointments`, `handlePageChange`,
  `handleSubmit`, `handleConfirmDeleteAppointment`,
  `handleCancelDeleteAppointment`), which issues no request token, and
* the sellers page (`fetchSellers` with `latestRequestRef`,
  `handlePageChange`, a 300 ms search-debounce effect,
  `handleSearchChange`, `handleCancelDeleteSeller`).

Each async handler of the source is embedded as one or two pure Lean
functions: a `...Start` function performing the synchronous prefix up to
the `await`, returning the updated state together with the request record
captured by the closure, and a `...Complete` function performing the
continuation for a given outcome of the network call.  List items are
atomic and represented by `Nat` identifiers; fields of the React
components that none of the verified operations read or write
(`leads`, `leadSearch`, `isLeadsLoading`, `formState`,
`editingAppointmentId`, `hasFetchedInitial`) are omitted from the state
records.
-/

namespace LeadManager

/-- Derived value `totalPages = Math.max(1, Math.ceil(total / PAGE_SIZE))`.  On natural
numbers `Math.ceil(total / pageSize)` is `(total + pageSize - 1) / pageSize`. -/
def totalPages (pageSize total : Nat) : Nat :=
  max 1 ((total + pageSize - 1) / pageSize)

/-- Derived value `effectivePage = Math.min(currentPage, totalPages)`. -/
def effectivePage (pageSize currentPage total : Nat) : Nat :=
  min currentPage (totalPages pageSize total)

/-- Derived value `showingFrom = total === 0 ? 0 : (effectivePage - 1) * PAGE_SIZE + 1`. -/
def showingFrom (pageSize currentPage total : Nat) : Nat :=
  if total = 0 then 0 else (effectivePage pageSize currentPage total - 1) * pageSize + 1

/-- Derived value `showingTo = total === 0 ? 0 : Math.min(effectivePage * PAGE_SIZE, total)`. -/
def showingTo (pageSize currentPage total : Nat) : Nat :=
  if total = 0 then 0 else min (effectivePage pageSize currentPage total * pageSize) total

/-- The JSON page payload returned by the remote collection collaborator:
`{ data, total, page }`.  The code reads `response.data.page ?? pageToFetch`,
so `page` is modelled as optional. -/
structure PageResponse where
  data : List Nat
  total : Nat
  page : Option Nat
  deriving DecidableEq, Repr

/-- Resolution of an awaited list request: the promise either fulfills with a
page payload or rejects. -/
inductive FetchOutcome where
  | success (resp : PageResponse)
  | failure
  deriving DecidableEq, Repr

/-- Resolution of an awaited create/update/delete call: on fulfillment the
handler re-fetches the list, and that re-fetch resolves with `refetch`. -/
inductive MutationOutcome where
  | success (refetch : FetchOutcome)
  | failure
  deriving DecidableEq, Repr

namespace Appointments

def PAGE_SIZE : Nat := 20

/-- The `useState` cells of `AppointmentsPage` that the verified operations
touch. -/
structure State where
  appointments : List Nat
  total : Nat
  currentPage : Nat
  selectedStatus : String
  isLoading : Bool
  error : Option String
  isModalOpen : Bool
  appointmentPendingDeletion : Option Nat
  isDeletingAppointment : Bool
  deriving DecidableEq, Repr

/-- The values `fetchAppointments` captures before awaiting the GET call. -/
structure Request where
  pageToFetch : Nat
  statusFilter : String
  previousPage : Nat
  deriving DecidableEq, Repr

/-- Synchronous prefix of `fetchAppointments(options)` up to
`await api.get(...)`: resolves the defaulted options, records
`previousPage`, moves `currentPage` to the requested page, raises
`isLoading` and clears `error`.  There is no request token in this
component. -/
def fetchAppointmentsStart (s : State) (pageOpt : Option Nat) (statusOpt : Option String) :
    State × Request :=
  let pageToFetch := pageOpt.getD s.currentPage
  let statusFilter := statusOpt.getD s.selectedStatus
  let previousPage := s.currentPage
  ({ s with currentPage := pageToFetch, isLoading := true, error := none },
   { pageToFetch := pageToFetch, statusFilter := statusFilter, previousPage := previousPage })

/-- Continuation of `fetchAppointments` after the awaited GET resolves.
On success it stores `data`, `total` and `response.data.page ?? pageToFetch`;
on failure it sets the error message and reverts `currentPage` to
`previousPage`; `finally` lowers `isLoading` unconditionally. -/
def fetchAppointmentsComplete (s : State) (req : Request) (out : FetchOutcome) : State :=
  match out with
  | .success resp =>
      { s with appointments := resp.data, total := resp.total,
               currentPage := resp.page.getD req.pageToFetch, isLoading := false }
  | .failure =>
      { s with error := some "Nao foi possivel carregar as calls.",
               currentPage := req.previousPage, isLoading := false }

/-- Handler `handlePageChange(page)`: no-op unless `1 ≤ page ≤ totalPages`,
`page ≠ currentPage` and no fetch is in flight; otherwise it starts
`fetchAppointments({ page })`.  The second component is the request issued
(at most one). -/
def handlePageChange (s : State) (page : Nat) : State × Option Request :=
  if page < 1 ∨ totalPages PAGE_SIZE s.total < page ∨ page = s.currentPage ∨
      s.isLoading = true then
    (s, none)
  else
    let sr := fetchAppointmentsStart s (some page) none
    (sr.1, some sr.2)

/-- A fetch round trip that fails with no interleaved operation:
`fetchAppointmentsStart` immediately followed by the failure continuation. -/
def fetchFailRound (s : State) (pageOpt : Option Nat) (statusOpt : Option String) : State :=
  let sr := fetchAppointmentsStart s pageOpt statusOpt
  fetchAppointmentsComplete sr.1 sr.2 .failure

/-- Scenario: `handlePageChange(n)` whose fetch, if one is issued, fails with no
interleaved operation. -/
def goToPageFail (s : State) (page : Nat) : State :=
  match handlePageChange s page with
  | (s', none) => s'
  | (s', some req) => fetchAppointmentsComplete s' req .failure

/-- Handler `handleSubmit`: awaits the POST/PATCH; on success closes the modal and
re-fetches `{ page: currentPage, status: selectedStatus }` (the awaited
round trip resolving with `refetch`); on failure only sets the error
message. -/
def handleSubmit (s : State) (out : MutationOutcome) : State :=
  match out with
  | .success refetch =>
      let s1 := { s with isModalOpen := false }
      let sr := fetchAppointmentsStart s1 (some s1.currentPage) (some s1.selectedStatus)
      fetchAppointmentsComplete sr.1 sr.2 refetch
  | .failure => { s with error := some "Erro ao salvar call." }

/-- Handler `handleConfirmDeleteAppointment`: returns early when nothing is pending;
otherwise raises `isDeletingAppointment`, awaits the DELETE, on success
clears the pending item and re-fetches the current query, on failure sets
the error message; `finally` lowers `isDeletingAppointment`. -/
def handleConfirmDeleteAppointment (s : State) (out : MutationOutcome) : State :=
  match s.appointmentPendingDeletion with
  | none => s
  | some _ =>
      match out with
      | .success refetch =>
          let s1 := { s with isDeletingAppointment := true, appointmentPendingDeletion := none }
          let sr := fetchAppointmentsStart s1 (some s1.currentPage) (some s1.selectedStatus)
          let s2 := fetchAppointmentsComplete sr.1 sr.2 refetch
          { s2 with isDeletingAppointment := false }
      | .failure =>
          { s with isDeletingAppointment := false, error := some "Erro ao remover call." }

/-- Handler `handleCancelDeleteAppointment`: ignored while a delete call is in
flight; otherwise clears the item pending deletion. -/
def handleCancelDeleteAppointment (s : State) : State :=
  if s.isDeletingAppointment = true then s else { s with appointmentPendingDeletion := none }

end Appointments

namespace Sellers

def PAGE_SIZE : Nat := 50

/-- The `useState` cells of `SellersPage` that the verified operations touch,
plus `latestRequestRef.current` (the supersession token counter). -/
structure State where
  sellers : List Nat
  total : Nat
  currentPage : Nat
  search : String
  lastFetchedSearch : String
  isLoading : Bool
  error : Option String
  latestRequest : Nat
  isModalOpen : Bool
  sellerPendingDeletion : Option Nat
  isDeleting : Bool
  deriving DecidableEq, Repr

/-- The values `fetchSellers` captures before awaiting the GET call,
including the request token `requestId = ++latestRequestRef.current`. -/
structure Request where
  requestId : Nat
  pageToFetch : Nat
  searchTerm : String
  previousPage : Nat
  deriving DecidableEq, Repr

/-- Derived value `isSearchDirty = search !== lastFetchedSearch`. -/
def isSearchDirty (s : State) : Bool :=
  s.search != s.lastFetchedSearch

/-- Synchronous prefix of `fetchSellers(options)` up to `await api.get(...)`:
resolves the defaulted options, records `previousPage`, moves `currentPage`
to the requested page, increments the token counter, raises `isLoading` and
clears `error`. -/
def fetchSellersStart (s : State) (pageOpt : Option Nat) (searchOpt : Option String) :
    State × Request :=
  let pageToFetch := pageOpt.getD s.currentPage
  let searchTerm := searchOpt.getD s.lastFetchedSearch
  let previousPage := s.currentPage
  let requestId := s.latestRequest + 1
  ({ s with currentPage := pageToFetch, latestRequest := requestId,
            isLoading := true, error := none },
   { requestId := requestId, pageToFetch := pageToFetch,
     searchTerm := searchTerm, previousPage := previousPage })

/-- Continuation of `fetchSellers` after the awaited GET resolves.  A
completion whose token is no longer `latestRequestRef.current` returns
without touching any state (the `finally` block is guarded by the same
token test).  A fresh success stores `data`, `total`,
`response.data.page ?? pageToFetch` and `lastFetchedSearch`; a fresh
failure sets the error message and reverts `currentPage` to `previousPage`
when this fetch had moved it. -/
def fetchSellersComplete (s : State) (req : Request) (out : FetchOutcome) : State :=
  if req.requestId ≠ s.latestRequest then s
  else
    match out with
    | .success resp =>
        { s with sellers := resp.data, total := resp.total,
                 currentPage := resp.page.getD req.pageToFetch,
                 lastFetchedSearch := req.searchTerm, isLoading := false }
    | .failure =>
        { s with error := some "Nao foi possivel carregar os vendedores.",
                 currentPage := if req.pageToFetch ≠ req.previousPage then req.previousPage
                                else s.currentPage,
                 isLoading := false }

/-- Folding a list of completions (request paired with its outcome) over the
state, in completion order. -/
def completeAll (s : State) (cs : List (Request × FetchOutcome)) : State :=
  cs.foldl (fun t c => fetchSellersComplete t c.1 c.2) s

/-- Handler `handlePageChange(page)` of the sellers page: the same guard as the
appointments page; the fetch it starts carries
`searchTerm: isSearchDirty ? search : lastFetchedSearch`. -/
def handlePageChange (s : State) (page : Nat) : State × Option Request :=
  if page < 1 ∨ totalPages PAGE_SIZE s.total < page ∨ page = s.currentPage ∨
      s.isLoading = true then
    (s, none)
  else
    let sr := fetchSellersStart s (some page)
      (some (if isSearchDirty s then s.search else s.lastFetchedSearch))
    (sr.1, some sr.2)

/-- A fetch round trip that fails with no interleaved operation. -/
def fetchFailRound (s : State) (pageOpt : Option Nat) (searchOpt : Option String) : State :=
  let sr := fetchSellersStart s pageOpt searchOpt
  fetchSellersComplete sr.1 sr.2 .failure

/-- Scenario: `handlePageChange(n)` whose fetch, if one is issued, fails with no
interleaved operation. -/
def goToPageFail (s : State) (page : Nat) : State :=
  match handlePageChange s page with
  | (s', none) => s'
  | (s', some req) => fetchSellersComplete s' req .failure

/-- Handler `handleCancelDeleteSeller`: ignored while a delete call is in flight;
otherwise clears the seller pending deletion. -/
def handleCancelDeleteSeller (s : State) : State :=
  if s.isDeleting = true then s else { s with sellerPendingDeletion := none }

/-- Component state together with the debounce effect's machinery: `timer`
is the remaining time of the armed `setTimeout`, and `fired` records the
`(page, searchTerm)` arguments of every `fetchSellers` call the timer has
issued, in order. -/
structure UI where
  st : State
  timer : Option Nat
  fired : List (Nat × String)
  deriving DecidableEq, Repr

/-- One run of the debounce `useEffect` body after its cleanup cleared any
pending timer: re-arm a 300-unit timer when the search box is dirty,
otherwise leave no timer armed. -/
def searchEffect (u : UI) : UI :=
  if isSearchDirty u.st then { u with timer := some 300 } else { u with timer := none }

/-- Handler `handleSearchChange(event)`: stores the new text, clears `error`,
raises `isLoading`; the dependent debounce effect then re-runs. -/
def handleSearchChange (u : UI) (value : String) : UI :=
  searchEffect { u with st := { u.st with search := value, error := none, isLoading := true } }

/-- Let `d` time units pass.  If the armed timer expires it fires
`fetchSellers({ page: 1, searchTerm: search })` (the synchronous prefix of
that call) and is disarmed. -/
def advance (u : UI) (d : Nat) : UI :=
  match u.timer with
  | none => u
  | some r =>
      if r ≤ d then
        let sr := fetchSellersStart u.st (some 1) (some u.st.search)
        { st := sr.1, timer := none, fired := u.fired ++ [(sr.2.pageToFetch, sr.2.searchTerm)] }
      else { u with timer := some (r - d) }

/-- One keystroke event: `d` time units after the previous event, the search
box changes to `term`. -/
def debStep (u : UI) (ev : Nat × String) : UI :=
  handleSearchChange (advance u ev.1) ev.2

/-- Process a sequence of keystroke events. -/
def debRun (u : UI) (evs : List (Nat × String)) : UI :=
  evs.foldl debStep u

/-- A full quiet window after the last keystroke. -/
def debSettle (u : UI) : UI :=
  advance u 300

/-- Invariant holding between keystrokes of a debounced typing burst that
started from search state `L` with fire log `F`: the applied search term and
the log are untouched, and a 300-unit timer is armed exactly when the box is
dirty. -/
def DebInv (L : String) (F : List (Nat × String)) (u : UI) : Prop :=
  u.st.lastFetchedSearch = L ∧ u.fired = F ∧
    u.timer = (if u.st.search = L then none else some 300)

end Sellers

/-! Concrete scenario states used by counterexamples and witnesses. -/

/-- Appointments page showing a loaded list of 100 items on page 1, no
filter, idle. -/
def exC1S0 : Appointments.State :=
  { appointments := [], total := 100, currentPage := 1, selectedStatus := "",
    isLoading := false, error := none, isModalOpen := false,
    appointmentPendingDeletion := none, isDeletingAppointment := false }

def exC1Resp1 : PageResponse := { data := [1], total := 10, page := some 2 }

def exC1Resp2 : PageResponse := { data := [2], total := 20, page := some 3 }

/-- First overlapping call: `fetchAppointments({ page: 2 })`. -/
def exC1Start1 : Appointments.State × Appointments.Request :=
  Appointments.fetchAppointmentsStart exC1S0 (some 2) none

/-- Second overlapping call, issued before the first resolves:
`fetchAppointments({ page: 3 })`. -/
def exC1Start2 : Appointments.State × Appointments.Request :=
  Appointments.fetchAppointmentsStart exC1Start1.1 (some 3) none

/-- The completions arrive out of order: the last-issued request (page 3)
resolves first, then the first-issued request (page 2) resolves. -/
def exC1Final : Appointments.State :=
  Appointments.fetchAppointmentsComplete
    (Appointments.fetchAppointmentsComplete exC1Start2.1 exC1Start2.2 (.success exC1Resp2))
    exC1Start1.2 (.success exC1Resp1)

/-- Sellers page state whose latest issued token is 2. -/
def exC1WS : Sellers.State :=
  { sellers := [], total := 0, currentPage := 1, search := "", lastFetchedSearch := "",
    isLoading := true, error := none, latestRequest := 2, isModalOpen := false,
    sellerPendingDeletion := none, isDeleting := false }

/-- The latest-issued sellers request (token 2). -/
def exC1Wreq : Sellers.Request :=
  { requestId := 2, pageToFetch := 1, searchTerm := "", previousPage := 1 }

/-- A superseded sellers request (token 1). -/
def exC1WreqStale : Sellers.Request :=
  { requestId := 1, pageToFetch := 2, searchTerm := "", previousPage := 1 }

def exC1Wresp : PageResponse := { data := [5], total := 1, page := some 1 }

def exC1WrespStale : PageResponse := { data := [9], total := 90, page := some 2 }

/-- Sellers page with a dirty search box (`search = "b"`, last applied term
`"a"`), idle, two pages of results. -/
def exC6Dirty : Sellers.State :=
  { sellers := [], total := 100, currentPage := 1, search := "b", lastFetchedSearch := "a",
    isLoading := false, error := none, latestRequest := 7, isModalOpen := false,
    sellerPendingDeletion := none, isDeleting := false }

/-- Appointments page with `total = 45` (so `totalPages = 3`), idle on
page 1. -/
def exC6Appt : Appointments.State :=
  { appointments := [], total := 45, currentPage := 1, selectedStatus := "NO_SHOW",
    isLoading := false, error := none, isModalOpen := false,
    appointmentPendingDeletion := none, isDeletingAppointment := false }

/-- Appointments page with a delete call in flight for item 4. -/
def exC7Busy : Appointments.State :=
  { appointments := [4], total := 1, currentPage := 1, selectedStatus := "",
    isLoading := false, error := none, isModalOpen := false,
    appointmentPendingDeletion := some 4, isDeletingAppointment := true }

/-- Sellers page with a pending confirmation for seller 6 and no delete call
in flight. -/
def exC7Idle : Sellers.State :=
  { sellers := [6], total := 1, currentPage := 1, search := "", lastFetchedSearch := "",
    isLoading := false, error := none, latestRequest := 3, isModalOpen := false,
    sellerPendingDeletion := some 6, isDeleting := false }

/-- Appointments page with the edit modal open and item 2 pending
deletion, before a mutation is attempted. -/
def exC8S : Appointments.State :=
  { appointments := [1, 2], total := 2, currentPage := 1, selectedStatus := "",
    isLoading := false, error := none, isModalOpen := true,
    appointmentPendingDeletion := some 2, isDeletingAppointment := false }

/-- Sellers page in its initial clean state: empty search applied, no timer
armed, no debounce fetch fired yet. -/
def exC4U0 : Sellers.UI :=
  { st := { sellers := [], total := 0, currentPage := 1, search := "",
            lastFetchedSearch := "", isLoading := false, error := none,
            latestRequest := 1, isModalOpen := false,
            sellerPendingDeletion := none, isDeleting := false },
    timer := none, fired := [] }

/-- Two keystrokes 100 units apart: `"a"` then `"ab"`. -/
def exC4Evs : List (Nat × String) := [(0, "a"), (100, "ab")]

/-- Same starting state as `exC4U0`, for the search-reverted wedge. -/
def exC9U0 : Sellers.UI := exC4U0

/-- Two keystrokes 50 units apart: `"x"`, then back to the applied term
`""`. -/
def exC9Evs : List (Nat × String) := [(0, "x"), (50, "")]

end LeadManager

namespace LeadManager

/-- The integer formula `(total + pageSize - 1) / pageSize` computes the
mathematical ceiling of `total / pageSize`. -/
theorem ceil_formula (t p : Nat) (hp : 0 < p) :
    (t + p - 1) / p = ⌈(t : ℚ) / (p : ℚ)⌉₊ := by
  refine eq_of_forall_ge_iff fun c => ?_
  have hpq : (0 : ℚ) < (p : ℚ) := by exact_mod_cast hp
  rw [Nat.div_le_iff_le_mul_add_pred hp, Nat.ceil_le, div_le_iff₀ hpq]
  have hcast : (t : ℚ) ≤ (c : ℚ) * (p : ℚ) ↔ t ≤ c * p := by
    constructor
    · intro h; exact_mod_cast h
    · intro h; exact_mod_cast h
  rw [hcast, Nat.mul_comm c p]
  obtain ⟨m, hm⟩ : ∃ m, m = p * c := ⟨p * c, rfl⟩
  rw [← hm]
  omega

/-- Claim C5: after every successful fetch the derived page count satisfies
`totalPages = max(1, ceil(totalCount / pageSize))` for every
`totalCount ≥ 0` and fixed `pageSize > 0`; in particular `totalCount = 0`
yields `totalPages = 1`. -/
theorem C5_totalPages (t p : Nat) (hp : 0 < p) :
    totalPages p t = max 1 ⌈(t : ℚ) / (p : ℚ)⌉₊ ∧ totalPages p 0 = 1 := by
  constructor
  · unfold totalPages
    rw [ceil_formula t p hp]
  · unfold totalPages
    have h0 : (0 + p - 1) / p = 0 := Nat.div_eq_of_lt (by omega)
    rw [h0]
    rfl

theorem C5_totalPages_witness :
    0 < 20 ∧
      (totalPages 20 45 = max 1 ⌈(45 : ℚ) / (20 : ℚ)⌉₊ ∧ totalPages 20 0 = 1) :=
  ⟨by decide, C5_totalPages 45 20 (by decide)⟩

/-- Counterexample to claim C3 as stated: the code computes
`effectivePage = Math.min(currentPage, totalPages)` with no lower clamp, so
`currentPage = 0` with `totalCount = 5 ≥ 0` shows an effective page of `0`,
outside `[1, totalPages]`. -/
theorem C3_counterexample :
    effectivePage Appointments.PAGE_SIZE 0 5 = 0 ∧
      totalPages Appointments.PAGE_SIZE 5 = 1 ∧
      Nat.ble 1 (effectivePage Appointments.PAGE_SIZE 0 5) = false := by
  decide

/-- The effective page is at least 1 when the current page is, and never
exceeds the derived page count. -/
theorem effectivePage_bounds (p c t : Nat) (hc : 1 ≤ c) :
    1 ≤ effectivePage p c t ∧ effectivePage p c t ≤ totalPages p t := by
  unfold effectivePage
  exact ⟨le_min hc (le_max_left _ _), min_le_right _ _⟩

/-- Claim C3 (amended): whenever `currentPage ≥ 1` — as every reachable
state produced by the page handlers maintains — the effective page satisfies
`1 ≤ effectivePage ≤ totalPages`, for every `totalCount ≥ 0`. -/
theorem C3_effectivePage_bounds (p c t : Nat) (hc : 1 ≤ c) :
    1 ≤ effectivePage p c t ∧ effectivePage p c t ≤ totalPages p t :=
  effectivePage_bounds p c t hc

theorem C3_effectivePage_bounds_witness :
    1 ≤ 3 ∧
      (1 ≤ effectivePage Appointments.PAGE_SIZE 3 45 ∧
        effectivePage Appointments.PAGE_SIZE 3 45 ≤ totalPages Appointments.PAGE_SIZE 45) :=
  ⟨by decide, C3_effectivePage_bounds Appointments.PAGE_SIZE 3 45 (by decide)⟩

/-- Claim C10: with `currentPage ≥ 1` and a positive page size, the
displayed range degenerates to `0-0` exactly on an empty collection, and on
a non-empty one satisfies `1 ≤ showingFrom ≤ showingTo ≤ total`. -/
theorem C10_showing_range (p c t : Nat) (hp : 0 < p) (hc : 1 ≤ c) :
    (t = 0 → showingFrom p c t = 0 ∧ showingTo p c t = 0) ∧
      (0 < t →
        1 ≤ showingFrom p c t ∧
          showingFrom p c t ≤ showingTo p c t ∧ showingTo p c t ≤ t) := by
  constructor
  · intro h0
    simp [showingFrom, showingTo, h0]
  · intro ht
    have hne : ¬t = 0 := by omega
    have he1 : 1 ≤ effectivePage p c t :=
      (effectivePage_bounds p c t hc).1
    have heT : effectivePage p c t ≤ totalPages p t :=
      (effectivePage_bounds p c t hc).2
    have hd1 : 1 ≤ (t + p - 1) / p := by
      rw [Nat.one_le_div_iff hp]
      omega
    have hTd : totalPages p t = (t + p - 1) / p := by
      unfold totalPages
      omega
    have hed : effectivePage p c t ≤ (t + p - 1) / p := hTd ▸ heT
    have hdp : (t + p - 1) / p * p ≤ t + p - 1 := Nat.div_mul_le_self _ _
    have hsub : (effectivePage p c t - 1) * p ≤ ((t + p - 1) / p - 1) * p :=
      Nat.mul_le_mul_right p (by omega)
    have hexp : ((t + p - 1) / p - 1) * p = (t + p - 1) / p * p - 1 * p :=
      Nat.sub_mul _ _ _
    have hfrom_to : (effectivePage p c t - 1) * p + 1 ≤ effectivePage p c t * p := by
      have : effectivePage p c t * p = (effectivePage p c t - 1) * p + 1 * p := by
        rw [← Nat.add_mul]
        congr 1
        omega
      omega
    have hfrom_t : (effectivePage p c t - 1) * p + 1 ≤ t := by
      omega
    refine ⟨?_, ?_, ?_⟩
    · simp [showingFrom, hne]
    · simp only [showingFrom, showingTo, hne, if_false]
      exact le_min hfrom_to hfrom_t
    · simp [showingTo, hne]

/-- A sellers completion whose token is no longer the latest issued one
leaves the state completely unchanged. -/
theorem fetchSellersComplete_stale (t : Sellers.State) (q : Sellers.Request)
    (o : FetchOutcome) (h : q.requestId ≠ t.latestRequest) :
    Sellers.fetchSellersComplete t q o = t := by
  unfold Sellers.fetchSellersComplete
  rw [if_pos h]

/-- Completions never move the token counter: only fetch initiations do. -/
theorem fetchSellersComplete_latestRequest (t : Sellers.State) (q : Sellers.Request)
    (o : FetchOutcome) :
    (Sellers.fetchSellersComplete t q o).latestRequest = t.latestRequest := by
  unfold Sellers.fetchSellersComplete
  by_cases h : q.requestId = t.latestRequest
  · rw [if_neg (not_not_intro h)]
    cases o <;> rfl
  · rw [if_pos h]

/-- Folding any list of completions that are all stale relative to the
latest issued token leaves the state unchanged. -/
theorem completeAll_stale (cs : List (Sellers.Request × FetchOutcome)) :
    ∀ (t : Sellers.State) (m : Nat), t.latestRequest = m →
      (∀ c ∈ cs, c.1.requestId ≠ m) → Sellers.completeAll t cs = t := by
  induction cs with
  | nil =>
      intro t m _ _
      rfl
  | cons c rest ih =>
      intro t m hm hcs
      have h1 : Sellers.fetchSellersComplete t c.1 c.2 = t :=
        fetchSellersComplete_stale t c.1 c.2
          (by rw [hm]; exact hcs c (List.mem_cons_self c rest))
      show Sellers.completeAll (Sellers.fetchSellersComplete t c.1 c.2) rest = t
      rw [h1]
      exact ih t m hm fun d hd => hcs d (List.mem_cons_of_mem c hd)

/-- Claim C1 (amended): in the sellers controller every completion whose
token is not the latest issued one is discarded with no state mutation, so
whatever order the outstanding completions arrive in after the last-issued
request `r`, the final state is exactly the effect of `r`'s own completion;
when `r` succeeds, the displayed items, total and page come from `r`'s
response.  The appointments controller has no token and does not have this
property (see the counterexample). -/
theorem C1_sellers_last_write_wins
    (s : Sellers.State) (r : Sellers.Request) (out : FetchOutcome)
    (pre post : List (Sellers.Request × FetchOutcome))
    (hr : r.requestId = s.latestRequest)
    (hpre : ∀ c ∈ pre, c.1.requestId ≠ s.latestRequest)
    (hpost : ∀ c ∈ post, c.1.requestId ≠ s.latestRequest) :
    (∀ (t : Sellers.State) (q : Sellers.Request) (o : FetchOutcome),
        q.requestId ≠ t.latestRequest → Sellers.fetchSellersComplete t q o = t) ∧
      Sellers.completeAll s (pre ++ (r, out) :: post) =
        Sellers.fetchSellersComplete s r out ∧
      (∀ resp : PageResponse, out = .success resp →
        (Sellers.completeAll s (pre ++ (r, out) :: post)).sellers = resp.data ∧
          (Sellers.completeAll s (pre ++ (r, out) :: post)).total = resp.total ∧
          (Sellers.completeAll s (pre ++ (r, out) :: post)).currentPage =
            resp.page.getD r.pageToFetch) := by
  have hmain : Sellers.completeAll s (pre ++ (r, out) :: post) =
      Sellers.fetchSellersComplete s r out := by
    unfold Sellers.completeAll
    rw [List.foldl_append]
    have h1 : List.foldl (fun t c => Sellers.fetchSellersComplete t c.1 c.2) s pre = s :=
      completeAll_stale pre s s.latestRequest rfl hpre
    rw [h1]
    show Sellers.completeAll (Sellers.fetchSellersComplete s r out) post =
      Sellers.fetchSellersComplete s r out
    exact completeAll_stale post _ s.latestRequest
      (fetchSellersComplete_latestRequest s r out) hpost
  refine ⟨fun t q o h => fetchSellersComplete_stale t q o h, hmain, ?_⟩
  intro resp hout
  subst hout
  rw [hmain]
  unfold Sellers.fetchSellersComplete
  rw [if_neg (not_not_intro hr)]
  exact ⟨rfl, rfl, rfl⟩

theorem C1_sellers_last_write_wins_witness :
    Sellers.completeAll exC1WS
        ([(exC1WreqStale, .success exC1WrespStale)] ++
          (exC1Wreq, .success exC1Wresp) :: []) =
      Sellers.fetchSellersComplete exC1WS exC1Wreq (.success exC1Wresp) :=
  (C1_sellers_last_write_wins exC1WS exC1Wreq (.success exC1Wresp)
      [(exC1WreqStale, .success exC1WrespStale)] [] rfl
      (by decide) (by decide)).2.1

/-- Counterexample to claim C1 as stated: the appointments controller's
`fetchAppointments` issues no request token, so when two overlapping calls
complete out of order the final displayed items, total and page come from
the first-issued request (items `[1]`, total 10, page 2) and not from the
last-issued one (items `[2]`, total 20, page 3). -/
theorem C1_counterexample :
    exC1Final.appointments = [1] ∧ exC1Final.total = 10 ∧ exC1Final.currentPage = 2 ∧
      exC1Resp2.data = [2] ∧ exC1Resp2.total = 20 ∧
      (exC1Final.total == exC1Resp2.total) = false ∧
      (exC1Final.currentPage == 3) = false := by
  decide

/-- Claim C2: a failed fetch (with no newer request superseding it) sets the
user-facing error message and reverts `currentPage` to its value before the
fetch began; in particular a failed `goToPage(n)` leaves the current page at
its pre-call value, not `n`.  Stated for both controllers, and for
`goToPage` both when the guard rejects the call and when the issued fetch
fails. -/
theorem C2_failed_fetch_reverts_page :
    (∀ (s : Appointments.State) (pageOpt : Option Nat) (statusOpt : Option String),
        (Appointments.fetchFailRound s pageOpt statusOpt).currentPage = s.currentPage ∧
          (Appointments.fetchFailRound s pageOpt statusOpt).error =
            some "Nao foi possivel carregar as calls.") ∧
      (∀ (s : Sellers.State) (pageOpt : Option Nat) (searchOpt : Option String),
        (Sellers.fetchFailRound s pageOpt searchOpt).currentPage = s.currentPage ∧
          (Sellers.fetchFailRound s pageOpt searchOpt).error =
            some "Nao foi possivel carregar os vendedores.") ∧
      (∀ (s : Appointments.State) (n : Nat),
        (Appointments.goToPageFail s n).currentPage = s.currentPage) ∧
      (∀ (s : Sellers.State) (n : Nat),
        (Sellers.goToPageFail s n).currentPage = s.currentPage) := by
  have happt : ∀ (s : Appointments.State) (pageOpt : Option Nat) (statusOpt : Option String),
      (Appointments.fetchFailRound s pageOpt statusOpt).currentPage = s.currentPage ∧
        (Appointments.fetchFailRound s pageOpt statusOpt).error =
          some "Nao foi possivel carregar as calls." := by
    intro s pageOpt statusOpt
    exact ⟨rfl, rfl⟩
  have hsell : ∀ (s : Sellers.State) (pageOpt : Option Nat) (searchOpt : Option String),
      (Sellers.fetchFailRound s pageOpt searchOpt).currentPage = s.currentPage ∧
        (Sellers.fetchFailRound s pageOpt searchOpt).error =
          some "Nao foi possivel carregar os vendedores." := by
    intro s pageOpt searchOpt
    unfold Sellers.fetchFailRound Sellers.fetchSellersStart Sellers.fetchSellersComplete
    constructor
    · simp only []
      split
      · omega
      · split <;> simp_all
    · simp only []
      split
      · omega
      · rfl
  refine ⟨happt, hsell, ?_, ?_⟩
  · intro s n
    by_cases hg : n < 1 ∨ totalPages Appointments.PAGE_SIZE s.total < n ∨
        n = s.currentPage ∨ s.isLoading = true
    all_goals simp only [Nat.lt_one_iff] at hg
    · simp [Appointments.goToPageFail, Appointments.handlePageChange, hg]
    · simpa [Appointments.goToPageFail, Appointments.handlePageChange, hg,
        Appointments.fetchFailRound] using
        (happt s (some n) none).1
  · intro s n
    by_cases hg : n < 1 ∨ totalPages Sellers.PAGE_SIZE s.total < n ∨
        n = s.currentPage ∨ s.isLoading = true
    all_goals simp only [Nat.lt_one_iff] at hg
    · simp [Sellers.goToPageFail, Sellers.handlePageChange, hg]
    · simpa [Sellers.goToPageFail, Sellers.handlePageChange, hg,
        Sellers.fetchFailRound] using
        (hsell s (some n)
          (some (if Sellers.isSearchDirty s then s.search else s.lastFetchedSearch))).1

/-- The sellers `handlePageChange` passes
`searchTerm: isSearchDirty ? search : lastFetchedSearch`, which always
evaluates to the current search box text. -/
theorem dirty_select (s : Sellers.State) :
    (if Sellers.isSearchDirty s then s.search else s.lastFetchedSearch) = s.search := by
  unfold Sellers.isSearchDirty
  by_cases h : s.search = s.lastFetchedSearch
  · simp [h]
  · simp [h]

/-- Counterexample to claim C6 as stated: in a sellers state whose search
box is dirty (`search = "b"`, last applied term `"a"`) and idle, a valid
`goToPage(2)` issues a request carrying the pending term `"b"`, not the
currently applied search term `"a"`. -/
theorem C6_counterexample :
    (Sellers.handlePageChange exC6Dirty 2).2 =
        some { requestId := 8, pageToFetch := 2, searchTerm := "b", previousPage := 1 } ∧
      exC6Dirty.lastFetchedSearch = "a" ∧ (("b" : String) == "a") = false := by
  decide

/-- Claim C6 (amended): `goToPage(n)` is a no-op — state unchanged and no
request issued — when `n < 1`, `n > totalPages`, `n = currentPage`, or a
fetch is in flight; otherwise it performs exactly one fetch start with
`page = n`.  The appointments controller sends the currently applied status
filter; the sellers controller sends the current search box text, which
equals the applied search term only when the box is clean. -/
theorem C6_handlePageChange_characterization :
    (∀ (s : Appointments.State) (n : Nat),
        (n < 1 ∨ totalPages Appointments.PAGE_SIZE s.total < n ∨ n = s.currentPage ∨
            s.isLoading = true) →
          Appointments.handlePageChange s n = (s, none)) ∧
      (∀ (s : Appointments.State) (n : Nat),
        ¬(n < 1 ∨ totalPages Appointments.PAGE_SIZE s.total < n ∨ n = s.currentPage ∨
            s.isLoading = true) →
          Appointments.handlePageChange s n =
            ((Appointments.fetchAppointmentsStart s (some n) none).1,
              some { pageToFetch := n, statusFilter := s.selectedStatus,
                     previousPage := s.currentPage })) ∧
      (∀ (s : Sellers.State) (n : Nat),
        (n < 1 ∨ totalPages Sellers.PAGE_SIZE s.total < n ∨ n = s.currentPage ∨
            s.isLoading = true) →
          Sellers.handlePageChange s n = (s, none)) ∧
      (∀ (s : Sellers.State) (n : Nat),
        ¬(n < 1 ∨ totalPages Sellers.PAGE_SIZE s.total < n ∨ n = s.currentPage ∨
            s.isLoading = true) →
          Sellers.handlePageChange s n =
            ((Sellers.fetchSellersStart s (some n) (some s.search)).1,
              some { requestId := s.latestRequest + 1, pageToFetch := n,
                     searchTerm := s.search, previousPage := s.currentPage })) := by
  refine ⟨?_, ?_, ?_, ?_⟩
  · intro s n hg
    unfold Appointments.handlePageChange
    rw [if_pos hg]
  · intro s n hg
    unfold Appointments.handlePageChange
    rw [if_neg hg]
    simp [Appointments.fetchAppointmentsStart]
  · intro s n hg
    unfold Sellers.handlePageChange
    rw [if_pos hg]
  · intro s n hg
    unfold Sellers.handlePageChange
    rw [if_neg hg]
    simp [Sellers.fetchSellersStart, dirty_select s]

theorem C6_handlePageChange_witness :
    Appointments.handlePageChange exC6Appt 5 = (exC6Appt, none) ∧
      Appointments.handlePageChange exC6Appt 2 =
        ((Appointments.fetchAppointmentsStart exC6Appt (some 2) none).1,
          some { pageToFetch := 2, statusFilter := "NO_SHOW", previousPage := 1 }) :=
  ⟨C6_handlePageChange_characterization.1 exC6Appt 5 (by decide),
    C6_handlePageChange_characterization.2.1 exC6Appt 2 (by decide)⟩

/-- Claim C7: while a delete call is in flight the confirmation dialog's
cancel action is ignored (the state, including the pending-deletion item, is
completely unchanged); when no delete is in flight, cancel clears exactly
the pending-deletion item.  Stated for both pages. -/
theorem C7_cancel_delete_guard :
    (∀ s : Appointments.State, s.isDeletingAppointment = true →
        Appointments.handleCancelDeleteAppointment s = s) ∧
      (∀ s : Appointments.State, s.isDeletingAppointment = false →
        Appointments.handleCancelDeleteAppointment s =
          { s with appointmentPendingDeletion := none }) ∧
      (∀ s : Sellers.State, s.isDeleting = true →
        Sellers.handleCancelDeleteSeller s = s) ∧
      (∀ s : Sellers.State, s.isDeleting = false →
        Sellers.handleCancelDeleteSeller s = { s with sellerPendingDeletion := none }) := by
  refine ⟨?_, ?_, ?_, ?_⟩ <;> intro s h <;>
    simp [Appointments.handleCancelDeleteAppointment, Sellers.handleCancelDeleteSeller, h]

theorem C7_cancel_delete_guard_witness :
    Appointments.handleCancelDeleteAppointment exC7Busy = exC7Busy ∧
      Sellers.handleCancelDeleteSeller exC7Idle =
        { exC7Idle with sellerPendingDeletion := none } :=
  ⟨C7_cancel_delete_guard.1 exC7Busy rfl, C7_cancel_delete_guard.2.2.2 exC7Idle rfl⟩

/-- Claim C8: a failed create/update (`handleSubmit`) or delete
(`handleConfirmDeleteAppointment`) leaves the displayed items and
`totalCount` exactly as they were before the operation began; the whole
resulting state differs from the pre-call state only in the error
message. -/
theorem C8_failed_mutations_preserve_list :
    (∀ s : Appointments.State,
        (Appointments.handleSubmit s .failure).appointments = s.appointments ∧
          (Appointments.handleSubmit s .failure).total = s.total ∧
          Appointments.handleSubmit s .failure =
            { s with error := some "Erro ao salvar call." }) ∧
      (∀ (s : Appointments.State) (a : Nat),
        s.appointmentPendingDeletion = some a → s.isDeletingAppointment = false →
          (Appointments.handleConfirmDeleteAppointment s .failure).appointments =
              s.appointments ∧
            (Appointments.handleConfirmDeleteAppointment s .failure).total = s.total ∧
            Appointments.handleConfirmDeleteAppointment s .failure =
              { s with error := some "Erro ao remover call." }) := by
  constructor
  · intro s
    exact ⟨rfl, rfl, rfl⟩
  · intro s a hp hd
    obtain ⟨ap, tot, cp, st, il, er, mo, pd, dl⟩ := s
    simp only at hp hd
    subst hp
    subst hd
    exact ⟨rfl, rfl, rfl⟩

theorem C8_failed_mutations_preserve_list_witness :
    ((Appointments.handleSubmit exC8S .failure).appointments = exC8S.appointments ∧
        (Appointments.handleSubmit exC8S .failure).total = exC8S.total ∧
        Appointments.handleSubmit exC8S .failure =
          { exC8S with error := some "Erro ao salvar call." }) ∧
      ((Appointments.handleConfirmDeleteAppointment exC8S .failure).appointments =
          exC8S.appointments ∧
        (Appointments.handleConfirmDeleteAppointment exC8S .failure).total = exC8S.total ∧
        Appointments.handleConfirmDeleteAppointment exC8S .failure =
          { exC8S with error := some "Erro ao remover call." }) :=
  ⟨C8_failed_mutations_preserve_list.1 exC8S,
    C8_failed_mutations_preserve_list.2 exC8S 2 rfl rfl⟩

/-- One keystroke inside the debounce window (strictly less than 300 units
after the previous one) preserves the typing-burst invariant: no fetch
fires, the applied term is untouched, the box now holds the new term,
`isLoading` is raised. -/
theorem debStep_inv (L : String) (F : List (Nat × String)) (u : Sellers.UI)
    (ev : Nat × String) (hu : Sellers.DebInv L F u) (hd : ev.1 < 300) :
    Sellers.DebInv L F (Sellers.debStep u ev) ∧
      (Sellers.debStep u ev).st.search = ev.2 ∧
      (Sellers.debStep u ev).st.isLoading = true := by
  obtain ⟨hL, hF, hT⟩ := hu
  have hne : ¬(300 ≤ ev.1) := by omega
  by_cases hs : u.st.search = L
  · have hT' : u.timer = none := by simpa [hs] using hT
    unfold Sellers.debStep Sellers.handleSearchChange Sellers.searchEffect
      Sellers.advance Sellers.isSearchDirty Sellers.DebInv
    rw [hT']
    by_cases he : ev.2 = L <;> simp [hL, hF, he]
  · have hT' : u.timer = some 300 := by simpa [hs] using hT
    unfold Sellers.debStep Sellers.handleSearchChange Sellers.searchEffect
      Sellers.advance Sellers.isSearchDirty Sellers.DebInv
    rw [hT']
    by_cases he : ev.2 = L <;> simp [hL, hF, he, hne]

/-- A whole burst of keystrokes, each within the debounce window of the
previous one, preserves the invariant; afterwards the box holds the last
typed term and `isLoading` is raised. -/
theorem debRun_inv (L : String) (F : List (Nat × String)) :
    ∀ (evs : List (Nat × String)) (u : Sellers.UI), Sellers.DebInv L F u →
      (∀ e ∈ evs, e.1 < 300) →
      Sellers.DebInv L F (Sellers.debRun u evs) ∧
        (∀ h : evs ≠ [],
          (Sellers.debRun u evs).st.search = (evs.getLast h).2 ∧
            (Sellers.debRun u evs).st.isLoading = true) := by
  intro evs
  induction evs with
  | nil =>
      intro u hu _
      exact ⟨hu, fun h => absurd rfl h⟩
  | cons e rest ih =>
      intro u hu hlt
      have he : e.1 < 300 := hlt e (List.mem_cons_self e rest)
      obtain ⟨h1, h2, h3⟩ := debStep_inv L F u e hu he
      have hrest : ∀ d ∈ rest, d.1 < 300 := fun d hd => hlt d (List.mem_cons_of_mem e hd)
      obtain ⟨hinv, hlast⟩ := ih (Sellers.debStep u e) h1 hrest
      refine ⟨hinv, ?_⟩
      intro hne
      cases rest with
      | nil => exact ⟨h2, h3⟩
      | cons f rest2 =>
          have hne2 : f :: rest2 ≠ [] := by simp
          have hl := hlast hne2
          rw [List.getLast_cons hne2]
          exact hl

/-- After a full quiet window: a clean box fires nothing and changes
nothing; a dirty box fires exactly one fetch, with page 1 and the current
box text, and disarms the timer. -/
theorem debSettle_spec (L : String) (F : List (Nat × String)) (u : Sellers.UI)
    (hu : Sellers.DebInv L F u) :
    (u.st.search = L → Sellers.debSettle u = u) ∧
      (u.st.search ≠ L →
        (Sellers.debSettle u).fired = F ++ [(1, u.st.search)] ∧
          (Sellers.debSettle u).timer = none ∧
          (Sellers.debSettle u).st.isLoading = true) := by
  obtain ⟨hL, hF, hT⟩ := hu
  constructor
  · intro hs
    have hT' : u.timer = none := by simpa [hs] using hT
    unfold Sellers.debSettle Sellers.advance
    rw [hT']
  · intro hs
    have hT' : u.timer = some 300 := by simpa [hs] using hT
    unfold Sellers.debSettle Sellers.advance
    rw [hT']
    simp [Sellers.fetchSellersStart, hF]

/-- Claim C4: starting from a clean search box with no timer armed, any
burst of `N ≥ 1` keystrokes each within the 300-unit debounce window of the
previous one triggers, after the quiet period, exactly one fetch — carrying
the final (trailing) term with page reset to 1 — and no fetch at all when
the final term equals the last applied search term. -/
theorem C4_search_debounce (L : String) (u : Sellers.UI) (evs : List (Nat × String))
    (hne : evs ≠ []) (htimer : u.timer = none) (hfired : u.fired = [])
    (hlast : u.st.lastFetchedSearch = L) (hsearch : u.st.search = L)
    (hgaps : ∀ e ∈ evs, e.1 < 300) :
    ((evs.getLast hne).2 ≠ L →
        (Sellers.debSettle (Sellers.debRun u evs)).fired = [(1, (evs.getLast hne).2)]) ∧
      ((evs.getLast hne).2 = L →
        (Sellers.debSettle (Sellers.debRun u evs)).fired = []) := by
  have hu : Sellers.DebInv L [] u := ⟨hlast, hfired, by simp [hsearch, htimer]⟩
  obtain ⟨hinv, hlastf⟩ := debRun_inv L [] evs u hu hgaps
  obtain ⟨hsearch', hload'⟩ := hlastf hne
  obtain ⟨hclean, hdirty⟩ := debSettle_spec L [] (Sellers.debRun u evs) hinv
  constructor
  · intro hT
    have hfire := (hdirty (by rw [hsearch']; exact hT)).1
    rw [hsearch'] at hfire
    simpa using hfire
  · intro hT
    have heq := hclean (by rw [hsearch', hT])
    rw [heq]
    exact hinv.2.1

theorem C4_search_debounce_witness :
    (Sellers.debSettle (Sellers.debRun exC4U0 exC4Evs)).fired = [(1, "ab")] :=
  (C4_search_debounce "" exC4U0 exC4Evs (by decide) rfl rfl rfl rfl
      (by decide)).1 (by decide)

/-- Claim C9: when the search input is changed and then changed back so
that it again equals the last applied term, the keystroke handler has
raised `isLoading` but the debounce effect issues no fetch, so after the
quiet window the controller sits with `loading = true`, an empty fire log,
no timer armed, and a clean (`isSearchDirty = false`) box — a request-less
loading state until some other operation resets it. -/
theorem C9_search_revert_loading_wedge (L : String) (u : Sellers.UI)
    (evs : List (Nat × String)) (hne : evs ≠ [])
    (htimer : u.timer = none) (hfired : u.fired = [])
    (hlast : u.st.lastFetchedSearch = L) (hsearch : u.st.search = L)
    (hgaps : ∀ e ∈ evs, e.1 < 300)
    (hfinal : (evs.getLast hne).2 = L) :
    (Sellers.debSettle (Sellers.debRun u evs)).fired = [] ∧
      (Sellers.debSettle (Sellers.debRun u evs)).st.isLoading = true ∧
      (Sellers.debSettle (Sellers.debRun u evs)).timer = none ∧
      Sellers.isSearchDirty (Sellers.debSettle (Sellers.debRun u evs)).st = false := by
  have hu : Sellers.DebInv L [] u := ⟨hlast, hfired, by simp [hsearch, htimer]⟩
  obtain ⟨hinv, hlastf⟩ := debRun_inv L [] evs u hu hgaps
  obtain ⟨hsearch', hload'⟩ := hlastf hne
  obtain ⟨hclean, _⟩ := debSettle_spec L [] (Sellers.debRun u evs) hinv
  have heq := hclean (by rw [hsearch', hfinal])
  rw [heq]
  have htm := hinv.2.2
  rw [hsearch', hfinal] at htm
  refine ⟨hinv.2.1, hload', ?_, ?_⟩
  · simpa using htm
  · simp [Sellers.isSearchDirty, hinv.1, hsearch', hfinal]

theorem C9_search_revert_loading_wedge_witness :
    (Sellers.debSettle (Sellers.debRun exC9U0 exC9Evs)).fired = [] ∧
      (Sellers.debSettle (Sellers.debRun exC9U0 exC9Evs)).st.isLoading = true :=
  ⟨(C9_search_revert_loading_wedge "" exC9U0 exC9Evs (by decide) rfl rfl rfl rfl
      (by decide) (by decide)).1,
    (C9_search_revert_loading_wedge "" exC9U0 exC9Evs (by decide) rfl rfl rfl rfl
      (by decide) (by decide)).2.1⟩

theorem C10_showing_range_witness :
    0 < 20 ∧ 1 ≤ 3 ∧
      ((45 = 0 → showingFrom 20 3 45 = 0 ∧ showingTo 20 3 45 = 0) ∧
        (0 < 45 →
          1 ≤ showingFrom 20 3 45 ∧
            showingFrom 20 3 45 ≤ showingTo 20 3 45 ∧ showingTo 20 3 45 ≤ 45)) ∧
      showingFrom 20 3 45 = 41 ∧ showingTo 20 3 45 = 45 :=
  ⟨by decide, by decide, C10_showing_range 20 3 45 (by decide) (by decide),
    by decide, by decide⟩

end LeadManager
